import Mathlib

set_option autoImplicit false

namespace MicrosoftFace

/-!
Shallow embedding of `homeassistant/components/microsoft_face.py`: the
Microsoft Face API client (`MicrosoftFace.call_api`, `MicrosoftFace.update_store`),
the six service handlers registered in `async_setup`, and the
`MicrosoftFaceGroupEntity` read-only view over the mirrored store.

Python dictionaries are modelled as insertion-ordered association lists with
pairwise-distinct keys (`wfDict`); JSON-decoded response bodies as the `JVal`
inductive; the network as an explicit `NetOutcome` parameter describing what
happened to the one HTTP request a `call_api` invocation issues; exceptions as
explicit result constructors (`ApiResult.serviceError` for `HomeAssistantError`,
`ApiResult.pyError` for any other Python exception, which the handlers do not
catch).
-/

/-- A Python `dict` with string keys: an insertion-ordered association list.
Well-formed dictionaries (`wfDict`) have pairwise-distinct keys. -/
abbrev Dict (α : Type) : Type := List (String × α)

/-- Python `d.get(k)` / `d[k]` as a lookup: the value stored at key `k`,
`none` when the key is absent (where `d[k]` would raise `KeyError`). -/
def dget {α : Type} (d : Dict α) (k : String) : Option α :=
  match d with
  | [] => none
  | (q, v) :: rest => if q = k then some v else dget rest k

/-- Python `d[k] = v`: replace the value at `k` in place when the key is
present, otherwise append the new binding (insertion order). -/
def dset {α : Type} (d : Dict α) (k : String) (v : α) : Dict α :=
  match d with
  | [] => [(k, v)]
  | (q, w) :: rest => if q = k then (k, v) :: rest else (q, w) :: dset rest k v

/-- Python `d.pop(k)` (successful case): remove the binding at `k`. -/
def dpop {α : Type} (d : Dict α) (k : String) : Dict α :=
  match d with
  | [] => []
  | (q, w) :: rest => if q = k then rest else (q, w) :: dpop rest k

/-- The keys of a dictionary, in order. -/
def keys {α : Type} (d : Dict α) : List String := d.map Prod.fst

/-- The invariant every Python dict satisfies: keys are pairwise distinct. -/
abbrev wfDict {α : Type} (d : Dict α) : Prop := (keys d).Nodup

/-- A JSON value, as produced by `response.json()`. -/
inductive JVal : Type where
  | jnull : JVal
  | jbool (b : Bool) : JVal
  | jnum (n : Int) : JVal
  | jstr (s : String) : JVal
  | jarr (items : List JVal) : JVal
  | jobj (fields : List (String × JVal)) : JVal

/-- Python `v[k]` on a JSON-decoded value: `none` when `v` is not an object
(Python `TypeError`) or the key is absent (Python `KeyError`). -/
def jget (v : JVal) (k : String) : Option JVal :=
  match v with
  | JVal.jobj fields => dget fields k
  | _ => none

/-- The nested access `answer['error']['message']` performed at line 368 of the
source when building the error for a non-success status; `none` when either
lookup would raise in Python. -/
def errorMessage (body : JVal) : Option JVal :=
  match jget body "error" with
  | some e => jget e "message"
  | none => none

/-- An HTTP response that was received and whose body was parsed as JSON
(`response.json()`, line 360 of the source). -/
structure HttpResponse : Type where
  status : Nat
  body : JVal

/-- What happened to the single HTTP request a `call_api` invocation issues:
either a response arrived and its body was parsed (`response`), the transport
raised `aiohttp.ClientError` (`clientError`), the bounded timeout expired
before the response object was ever bound (`timeoutNoResponse`, i.e. during
the request at lines 357-358), or it expired after the response object was
bound but before `response.json()` completed (`timeoutAfterResponse`). -/
inductive NetOutcome : Type where
  | response (resp : HttpResponse) : NetOutcome
  | clientError : NetOutcome
  | timeoutNoResponse : NetOutcome
  | timeoutAfterResponse (resp : HttpResponse) : NetOutcome

/-- The `data` argument of `call_api`: Python `None`, a JSON-serializable
structured value, or raw image bytes. -/
inductive PyData : Type where
  | pyNone : PyData
  | obj (v : JVal) : PyData
  | bytes (bs : List Nat) : PyData

/-- The `payload` local of `call_api` (lines 344-353): `None`, the `data`
object passed through unchanged (binary branch, line 347), or the bytes of
`json.dumps(data).encode()` (line 351), represented by the value serialized. -/
inductive Payload : Type where
  | pyNone : Payload
  | passthrough (d : PyData) : Payload
  | encoded (d : PyData) : Payload

/-- The request `call_api` builds before issuing it: absolute URL,
content-type header value, and payload (lines 341-353). -/
structure ApiRequest : Type where
  url : String
  contentType : String
  payload : Payload

/-- How a `call_api` invocation terminates: returns the parsed body (`ok`),
raises `HomeAssistantError` — the single service-error kind — with the given
message object (`serviceError`), or raises some other Python exception that
the service handlers do not catch (`pyError`, carrying the exception kind). -/
inductive ApiResult : Type where
  | ok (answer : JVal) : ApiResult
  | serviceError (msg : JVal) : ApiResult
  | pyError (kind : String) : ApiResult

/-- The absolute URL built from `FACE_API_URL` (line 29) by the constructor
(line 305) and `call_api` (line 342): the region substituted into the host,
then the resource path appended. -/
def server_url (region : String) (fn : String) : String :=
  "https://" ++ region ++ ".api.cognitive.microsoft.com/face/v1.0/" ++ fn

/-- The try/except body of `call_api` (lines 355-376), as a function of the
network outcome.
  - A received response with status below 300 returns the parsed body
    (lines 363-364).
  - A received response with status 300 or above raises `HomeAssistantError`
    with `answer['error']['message']` (line 368); when that nested access
    itself fails the construction raises `KeyError`/`TypeError` instead,
    which nothing in the function catches.
  - `aiohttp.ClientError` is caught (line 370) and control falls through to
    the final fixed `raise HomeAssistantError("Network error on microsoft
    face api.")` (line 376).
  - `asyncio.TimeoutError` is caught (line 373); its handler logs
    `response.url` (line 374). When the timeout fired after the response
    object was bound this succeeds and control reaches the same fixed raise
    (line 376); when it fired before the response was ever bound, the local
    `response` is unbound and the log statement itself raises
    `UnboundLocalError`, which propagates instead of the fixed error. -/
def apiResult (outcome : NetOutcome) : ApiResult :=
  match outcome with
  | NetOutcome.response resp =>
      if resp.status < 300 then ApiResult.ok resp.body
      else
        match errorMessage resp.body with
        | some m => ApiResult.serviceError m
        | none => ApiResult.pyError "KeyError"
  | NetOutcome.clientError =>
      ApiResult.serviceError (JVal.jstr "Network error on microsoft face api.")
  | NetOutcome.timeoutNoResponse => ApiResult.pyError "UnboundLocalError"
  | NetOutcome.timeoutAfterResponse _ =>
      ApiResult.serviceError (JVal.jstr "Network error on microsoft face api.")

/-- `MicrosoftFace.call_api` (lines 337-376): builds the request — URL,
content-type header (`application/octet-stream` when `binary` else
`application/json`), payload (raw `data` when `binary`, else
`json.dumps(data).encode()` when `data` is not `None`) — issues it, and
terminates as described by `apiResult`. -/
def call_api (region : String) (fn : String) (data : PyData) (binary : Bool)
    (outcome : NetOutcome) : ApiRequest × ApiResult :=
  let url := server_url region fn
  let contentType := if binary then "application/octet-stream" else "application/json"
  let payload : Payload :=
    if binary then Payload.passthrough data
    else
      match data with
      | PyData.pyNone => Payload.pyNone
      | d => Payload.encoded d
  (⟨url, contentType, payload⟩, apiResult outcome)

/-- Modelled from the spec: `homeassistant.util.slugify` is imported at line 22
but its code is not under `src/`; the spec describes it as "an
identifier-normalization function mapping arbitrary display names to a
canonical lowercase/URL-safe form". Every theorem below holds for any such
function; this concrete choice lowercases alphanumeric characters and
replaces every other character with an underscore. -/
def slugify (name : String) : String :=
  String.mk (name.data.map fun c => if c.isAlphanum then c.toLower else '_')

/-- Python `str(p_id)` as performed by `"...".format(g_id, p_id)` on the
result of `dict.get`: the string itself when the lookup succeeded, the text
`"None"` when it returned Python `None`. -/
def formatOpt (o : Option String) : String :=
  match o with
  | some s => s
  | none => "None"

/-- The mutable state the handlers share: `face.store` (group identifier to
person-name-to-person-identifier mapping, line 306) and the `entities` dict of
`async_setup` (group identifier to the group entity's display name; the
entity objects themselves are presentation-layer handles, line 116). -/
structure FaceState : Type where
  store : Dict (Dict String)
  entities : Dict String

/-- Everything observable about one service-handler invocation: the state it
leaves behind, the remote calls it issued in order (method and resource
path), the error-log entries it wrote, and the exception that escaped the
handler into the command-dispatch layer (`none` when the handler returned). -/
structure OpOutcome : Type where
  state : FaceState
  calls : List (String × String)
  logs : List String
  raised : Option String

/-- The `async_create_group` service handler (lines 134-148): slugify the
name, PUT `persongroups/{g_id}`; on success insert an empty mapping under
`g_id` and register a fresh group entity; a `HomeAssistantError` is caught
and logged (line 147-148); any other exception escapes. -/
def async_create_group (st : FaceState) (name : String) (outcome : NetOutcome) : OpOutcome :=
  let g_id := slugify name
  let path := "persongroups/" ++ g_id
  match apiResult outcome with
  | ApiResult.ok _ =>
      ⟨⟨dset st.store g_id [], dset st.entities g_id name⟩, [("put", path)], [], none⟩
  | ApiResult.serviceError _ =>
      ⟨st, [("put", path)], ["Cannot create group " ++ g_id], none⟩
  | ApiResult.pyError k =>
      ⟨st, [("put", path)], [], some k⟩

/-- The `async_delete_group` service handler (lines 154-166): slugify the
name, DELETE `persongroups/{g_id}`; on success `face.store.pop(g_id)` then
`entities.pop(g_id)` — each raises `KeyError` when the key is absent, and
`KeyError` is not caught by the `except HomeAssistantError` clause, so it
escapes (with the store already popped when the second lookup fails);
a `HomeAssistantError` is caught and logged. -/
def async_delete_group (st : FaceState) (name : String) (outcome : NetOutcome) : OpOutcome :=
  let g_id := slugify name
  let path := "persongroups/" ++ g_id
  match apiResult outcome with
  | ApiResult.ok _ =>
      match dget st.store g_id with
      | none => ⟨st, [("delete", path)], [], some "KeyError"⟩
      | some _ =>
          match dget st.entities g_id with
          | none => ⟨⟨dpop st.store g_id, st.entities⟩, [("delete", path)], [], some "KeyError"⟩
          | some _ =>
              ⟨⟨dpop st.store g_id, dpop st.entities g_id⟩, [("delete", path)], [], none⟩
  | ApiResult.serviceError _ =>
      ⟨st, [("delete", path)], ["Cannot delete group " ++ g_id], none⟩
  | ApiResult.pyError k =>
      ⟨st, [("delete", path)], [], some k⟩

/-- The `async_train_group` service handler (lines 172-181): POST
`persongroups/{g_id}/train`; no store access at all; a `HomeAssistantError`
is caught and logged; any other exception escapes. -/
def async_train_group (st : FaceState) (g_id : String) (outcome : NetOutcome) : OpOutcome :=
  let path := "persongroups/" ++ g_id ++ "/train"
  match apiResult outcome with
  | ApiResult.ok _ => ⟨st, [("post", path)], [], none⟩
  | ApiResult.serviceError _ =>
      ⟨st, [("post", path)], ["Cannot train group " ++ g_id], none⟩
  | ApiResult.pyError k => ⟨st, [("post", path)], [], some k⟩

/-- The `async_create_person` service handler (lines 187-201): POST
`persongroups/{g_id}/persons` with the name; on success execute
`face.store[g_id][name] = user_data['personId']` — Python evaluates the
right-hand side first, so a missing `personId` field raises `KeyError`
before any store access, and a `g_id` absent from the store raises
`KeyError` with the store unchanged (both escape the
`except HomeAssistantError` clause) — then `entities[g_id]` is looked up for
the entity refresh, whose `KeyError` escapes with the store already mutated.
The remote-assigned identifier is a string in the service's schema; a
non-string `personId` is collapsed into the same `KeyError` branch here. -/
def async_create_person (st : FaceState) (g_id : String) (name : String)
    (outcome : NetOutcome) : OpOutcome :=
  let path := "persongroups/" ++ g_id ++ "/persons"
  match apiResult outcome with
  | ApiResult.ok answer =>
      match jget answer "personId" with
      | some (JVal.jstr p_id) =>
          match dget st.store g_id with
          | none => ⟨st, [("post", path)], [], some "KeyError"⟩
          | some grp =>
              let store1 := dset st.store g_id (dset grp name p_id)
              match dget st.entities g_id with
              | none => ⟨⟨store1, st.entities⟩, [("post", path)], [], some "KeyError"⟩
              | some _ => ⟨⟨store1, st.entities⟩, [("post", path)], [], none⟩
      | _ => ⟨st, [("post", path)], [], some "KeyError"⟩
  | ApiResult.serviceError _ =>
      ⟨st, [("post", path)], ["Cannot create person " ++ name], none⟩
  | ApiResult.pyError k => ⟨st, [("post", path)], [], some k⟩

/-- The `async_delete_person` service handler (lines 207-221). Line 212,
`p_id = face.store[g_id].get(name)`, runs before the `try` block: a `g_id`
absent from the store raises `KeyError` there, before any remote call, and
escapes; a present group with an absent name yields `p_id = None`, which is
formatted into the path as `"None"`. Then DELETE
`persongroups/{g_id}/persons/{p_id}`; on success `face.store[g_id].pop(name)`
(whose `KeyError` on an absent name escapes) and the `entities[g_id]` lookup
for the refresh; a `HomeAssistantError` from the call is caught and logged. -/
def async_delete_person (st : FaceState) (g_id : String) (name : String)
    (outcome : NetOutcome) : OpOutcome :=
  match dget st.store g_id with
  | none => ⟨st, [], [], some "KeyError"⟩
  | some grp =>
      let p_id := dget grp name
      let path := "persongroups/" ++ g_id ++ "/persons/" ++ formatOpt p_id
      match apiResult outcome with
      | ApiResult.ok _ =>
          match p_id with
          | none => ⟨st, [("delete", path)], [], some "KeyError"⟩
          | some _ =>
              let store1 := dset st.store g_id (dpop grp name)
              match dget st.entities g_id with
              | none => ⟨⟨store1, st.entities⟩, [("delete", path)], [], some "KeyError"⟩
              | some _ => ⟨⟨store1, st.entities⟩, [("delete", path)], [], none⟩
      | ApiResult.serviceError _ =>
          ⟨st, [("delete", path)], ["Cannot delete person " ++ formatOpt p_id], none⟩
      | ApiResult.pyError k => ⟨st, [("delete", path)], [], some k⟩

/-- The `async_face_person` service handler (lines 227-247). Line 231,
`p_id = face.store[g_id].get(...)`, runs before the `try` block: an absent
`g_id` raises `KeyError` there and escapes. Inside the `try`, the camera
collaborator is asked for image bytes (`image = none` models its
`HomeAssistantError`, which is caught and logged without any remote call);
then POST `persongroups/{g_id}/persons/{p_id}/persistedFaces` with the
binary flag; a `HomeAssistantError` is caught and logged (the source's log
text at line 247 says "delete person"); the store is never written. -/
def async_face_person (st : FaceState) (g_id : String) (person : String)
    (image : Option (List Nat)) (outcome : NetOutcome) : OpOutcome :=
  match dget st.store g_id with
  | none => ⟨st, [], [], some "KeyError"⟩
  | some grp =>
      let p_id := dget grp person
      let path := "persongroups/" ++ g_id ++ "/persons/" ++ formatOpt p_id ++ "/persistedFaces"
      match image with
      | none => ⟨st, [], ["Cannot delete person " ++ formatOpt p_id], none⟩
      | some _ =>
          match apiResult outcome with
          | ApiResult.ok _ => ⟨st, [("post", path)], [], none⟩
          | ApiResult.serviceError _ =>
              ⟨st, [("post", path)], ["Cannot delete person " ++ formatOpt p_id], none⟩
          | ApiResult.pyError k => ⟨st, [("post", path)], [], some k⟩

/-- One entry of the remote group list returned by `GET persongroups`
(fields read at lines 321 and 324). -/
structure RemoteGroup : Type where
  personGroupId : String
  name : String
deriving DecidableEq

/-- One entry of a remote person list returned by
`GET persongroups/{g_id}/persons` (fields read at line 330). -/
structure RemotePerson : Type where
  name : String
  personId : String
deriving DecidableEq

/-- One observable step of `update_store`, used to state its ordering:
`groupRecorded g` is the processing of the group-list entry (lines 321-324:
`store[g_id] = {}` and entity creation), `personsFetched g` the completion of
that group's person fetch and recording (lines 326-330). -/
inductive SyncEvent : Type where
  | groupRecorded (g_id : String) : SyncEvent
  | personsFetched (g_id : String) : SyncEvent
deriving DecidableEq

/-- The person-recording loop of `update_store` (lines 329-330): for each
person, `self._store[g_id][person['name']] = person['personId']` — a lookup
of `g_id` followed by an in-place set. The `none` branch is unreachable when
called as the source does (the key is inserted at line 322 just before);
Python would raise `KeyError` there. -/
def storePersons (store : Dict (Dict String)) (g_id : String)
    (ps : List RemotePerson) : Dict (Dict String) :=
  match ps with
  | [] => store
  | p :: rest =>
      match dget store g_id with
      | none => storePersons store g_id rest
      | some grp => storePersons (dset store g_id (dset grp p.name p.personId)) g_id rest

/-- The body of `update_store`'s per-group iteration (lines 320-332):
record the group (`store[g_id] = {}`, entity registered under `g_id`), then
fetch and record its persons. -/
def processGroup (st : FaceState) (g : RemoteGroup) (ps : List RemotePerson) : FaceState :=
  let store1 := dset st.store g.personGroupId []
  let ents1 := dset st.entities g.personGroupId g.name
  ⟨storePersons store1 g.personGroupId ps, ents1⟩

/-- `MicrosoftFace.update_store` (lines 314-335) on its success path: the
remote data is the group list paired, per group, with that group's person
list; groups are processed sequentially in list order (the only concurrent
part of the source is the final `asyncio.wait` over the entity-refresh
tasks, line 335, which touches no store state). Returns the final state and
the ordered trace of observable steps. -/
def update_store (st : FaceState) (remote : List (RemoteGroup × List RemotePerson)) :
    FaceState × List SyncEvent :=
  match remote with
  | [] => (st, [])
  | (g, ps) :: rest =>
      let st1 := processGroup st g ps
      let res := update_store st1 rest
      (res.1,
        SyncEvent.groupRecorded g.personGroupId
          :: SyncEvent.personsFetched g.personGroupId :: res.2)

/-- The `state` property of `MicrosoftFaceGroupEntity` (lines 276-279):
`len(self._api.store[self._id])`, recomputed from the shared store at every
read; `none` models the `KeyError` on a group absent from the store. -/
def entity_state (store : Dict (Dict String)) (g_id : String) : Option Nat :=
  (dget store g_id).map List.length

/-- The `device_state_attributes` property (lines 286-293): a fresh dict
built by iterating the group's name-to-identifier items, recomputed from the
shared store at every read. -/
def device_state_attributes (store : Dict (Dict String)) (g_id : String) :
    Option (Dict String) :=
  (dget store g_id).map (fun grp => grp.foldl (fun attr p => dset attr p.1 p.2) [])

/-- A concrete mirrored state used to instantiate the theorems below: one
group `family` (display name `Family`) containing one person. -/
def demoState : FaceState :=
  ⟨[("family", [("Alice", "abc123")])], [("family", "Family")]⟩

/-- A concrete non-success response body carrying a nested error message. -/
def demoErrBody : JVal :=
  JVal.jobj [("error", JVal.jobj [("message", JVal.jstr "bad request")])]

/-- A concrete successful network outcome: status 200, empty JSON object. -/
def demoOk : NetOutcome := NetOutcome.response ⟨200, JVal.jobj []⟩

/-! Dictionary lemmas. -/

theorem dget_dset_self {α : Type} (d : Dict α) (k : String) (v : α) :
    dget (dset d k v) k = some v := by
  induction d with
  | nil => simp [dset, dget]
  | cons p rest ih =>
      obtain ⟨q, w⟩ := p
      by_cases h : q = k
      · simp [dset, h, dget]
      · simp [dset, h, dget, ih]

theorem dget_dset_ne {α : Type} (d : Dict α) (k q : String) (v : α) (h : k ≠ q) :
    dget (dset d k v) q = dget d q := by
  induction d with
  | nil => simp [dset, dget, h]
  | cons p rest ih =>
      obtain ⟨a, b⟩ := p
      by_cases ha : a = k
      · subst ha
        simp [dset, dget, h, ih]
      · simp [dset, ha, dget, ih]

theorem dget_cons {α : Type} (a : String) (b : α) (rest : Dict α) (k : String) :
    dget ((a, b) :: rest) k = if a = k then some b else dget rest k := rfl

theorem dset_cons {α : Type} (a : String) (b : α) (rest : Dict α) (k : String) (v : α) :
    dset ((a, b) :: rest) k v
      = if a = k then (k, v) :: rest else (a, b) :: dset rest k v := rfl

theorem dpop_cons {α : Type} (a : String) (b : α) (rest : Dict α) (k : String) :
    dpop ((a, b) :: rest) k = if a = k then rest else (a, b) :: dpop rest k := rfl

theorem keys_nil {α : Type} : keys ([] : Dict α) = [] := rfl

theorem keys_cons {α : Type} (a : String) (b : α) (rest : Dict α) :
    keys ((a, b) :: rest) = a :: keys rest := rfl

theorem keys_append {α : Type} (d e : Dict α) : keys (d ++ e) = keys d ++ keys e := by
  simp [keys]

theorem dget_eq_none_of_not_mem {α : Type} (d : Dict α) (k : String)
    (h : k ∉ keys d) : dget d k = none := by
  induction d with
  | nil => rfl
  | cons p rest ih =>
      obtain ⟨a, b⟩ := p
      simp only [keys_cons, List.mem_cons, not_or] at h
      have hne : ¬ a = k := fun he => h.1 he.symm
      rw [dget_cons, if_neg hne]
      exact ih h.2

theorem dget_dpop_ne {α : Type} (d : Dict α) (k q : String) (h : k ≠ q) :
    dget (dpop d k) q = dget d q := by
  induction d with
  | nil => rfl
  | cons p rest ih =>
      obtain ⟨a, b⟩ := p
      by_cases ha : a = k
      · subst ha
        simp [dpop, dget, h, ih]
      · simp [dpop, ha, dget, ih]

theorem dget_dpop_self {α : Type} (d : Dict α) (k : String) (h : wfDict d) :
    dget (dpop d k) k = none := by
  induction d with
  | nil => rfl
  | cons p rest ih =>
      obtain ⟨a, b⟩ := p
      simp only [wfDict, keys_cons, List.nodup_cons] at h
      by_cases ha : a = k
      · rw [dpop_cons, if_pos ha]
        exact dget_eq_none_of_not_mem rest k (ha ▸ h.1)
      · rw [dpop_cons, if_neg ha, dget_cons, if_neg ha]
        exact ih h.2

theorem mem_keys_dset {α : Type} (d : Dict α) (k q : String) (v : α) :
    q ∈ keys (dset d k v) ↔ q ∈ keys d ∨ q = k := by
  induction d with
  | nil =>
      show q ∈ keys [(k, v)] ↔ q ∈ keys ([] : Dict α) ∨ q = k
      simp only [keys_cons, keys_nil, List.mem_cons, List.not_mem_nil]
      tauto
  | cons p rest ih =>
      obtain ⟨a, b⟩ := p
      by_cases ha : a = k
      · rw [dset_cons, if_pos ha, ha]
        simp only [keys_cons, List.mem_cons]
        tauto
      · rw [dset_cons, if_neg ha]
        simp only [keys_cons, List.mem_cons, ih]
        tauto

theorem wfDict_dset {α : Type} (d : Dict α) (k : String) (v : α) (h : wfDict d) :
    wfDict (dset d k v) := by
  induction d with
  | nil =>
      show (keys [(k, v)]).Nodup
      simp [keys_cons, keys_nil]
  | cons p rest ih =>
      obtain ⟨a, b⟩ := p
      simp only [wfDict, keys_cons, List.nodup_cons] at h
      by_cases ha : a = k
      · rw [dset_cons, if_pos ha]
        simp only [wfDict, keys_cons, List.nodup_cons]
        exact ⟨ha ▸ h.1, h.2⟩
      · have hrest := ih h.2
        rw [dset_cons, if_neg ha]
        simp only [wfDict, keys_cons, List.nodup_cons]
        refine ⟨fun hq => ?_, hrest⟩
        rcases (mem_keys_dset rest k a v).mp hq with hm | he
        · exact h.1 hm
        · exact ha he

theorem dset_eq_append {α : Type} (d : Dict α) (k : String) (v : α)
    (h : k ∉ keys d) : dset d k v = d ++ [(k, v)] := by
  induction d with
  | nil => rfl
  | cons p rest ih =>
      obtain ⟨a, b⟩ := p
      simp only [keys_cons, List.mem_cons, not_or] at h
      have hne : ¬ a = k := fun he => h.1 he.symm
      rw [dset_cons, if_neg hne, ih h.2]
      rfl

theorem foldl_dset_eq_append {α : Type} (l : List (String × α)) (a : Dict α)
    (hd : ∀ p ∈ l, p.1 ∉ keys a) (hnd : (l.map Prod.fst).Nodup) :
    l.foldl (fun acc p => dset acc p.1 p.2) a = a ++ l := by
  induction l generalizing a with
  | nil => simp
  | cons p rest ih =>
      obtain ⟨x, y⟩ := p
      simp only [List.map_cons, List.nodup_cons, List.mem_map] at hnd
      have hstep : dset a x y = a ++ [(x, y)] :=
        dset_eq_append a x y (hd (x, y) (by simp))
      have hrest : ∀ q ∈ rest, q.1 ∉ keys (a ++ [(x, y)]) := by
        intro q hq hmem
        rw [keys_append, List.mem_append] at hmem
        rcases hmem with hm | he
        · exact hd q (List.mem_cons_of_mem _ hq) hm
        · have hx : q.1 = x := by simpa [keys] using he
          exact hnd.1 ⟨q, hq, hx⟩
      calc (((x, y) :: rest).foldl (fun acc p => dset acc p.1 p.2) a)
          = rest.foldl (fun acc p => dset acc p.1 p.2) (a ++ [(x, y)]) := by
            simp [List.foldl_cons, hstep]
        _ = (a ++ [(x, y)]) ++ rest := ih (a ++ [(x, y)]) hrest hnd.2
        _ = a ++ ((x, y) :: rest) := by simp

/-! Lemmas about `storePersons` and `update_store`. -/

theorem storePersons_dget_self (store : Dict (Dict String)) (g : String)
    (grp : Dict String) (ps : List RemotePerson) (h : dget store g = some grp) :
    dget (storePersons store g ps) g
      = some (ps.foldl (fun acc p => dset acc p.name p.personId) grp) := by
  induction ps generalizing store grp with
  | nil => simpa [storePersons] using h
  | cons p rest ih =>
      simp only [storePersons, h, List.foldl_cons]
      exact ih (dset store g (dset grp p.name p.personId)) (dset grp p.name p.personId)
        (dget_dset_self store g (dset grp p.name p.personId))

theorem storePersons_dget_ne (store : Dict (Dict String)) (g q : String)
    (ps : List RemotePerson) (h : g ≠ q) :
    dget (storePersons store g ps) q = dget store q := by
  induction ps generalizing store with
  | nil => rfl
  | cons p rest ih =>
      cases hd : dget store g with
      | none => simpa [storePersons, hd] using ih store
      | some grp =>
          simp only [storePersons, hd]
          rw [ih (dset store g (dset grp p.name p.personId))]
          exact dget_dset_ne store g q (dset grp p.name p.personId) h

theorem update_store_dget_ne (st : FaceState)
    (remote : List (RemoteGroup × List RemotePerson)) (q : String)
    (h : q ∉ remote.map fun gp => gp.1.personGroupId) :
    dget (update_store st remote).1.store q = dget st.store q := by
  induction remote generalizing st with
  | nil => rfl
  | cons gp rest ih =>
      obtain ⟨g, ps⟩ := gp
      simp only [List.map_cons, List.mem_cons, not_or] at h
      simp only [update_store]
      rw [ih (processGroup st g ps) h.2]
      simp only [processGroup]
      rw [storePersons_dget_ne _ _ _ _ (fun he => h.1 he.symm)]
      exact dget_dset_ne st.store g.personGroupId q [] (fun he => h.1 he.symm)

theorem persons_foldl_eq_map (ps : List RemotePerson)
    (hp : (ps.map RemotePerson.name).Nodup) :
    ps.foldl (fun acc p => dset acc p.name p.personId) ([] : Dict String)
      = ps.map fun p => (p.name, p.personId) := by
  have hfold := foldl_dset_eq_append (ps.map fun p => (p.name, p.personId)) []
    (by intro p _; simp [keys]) (by simpa [Function.comp] using hp)
  rw [List.foldl_map] at hfold
  simpa using hfold

theorem update_store_dget (st : FaceState)
    (remote : List (RemoteGroup × List RemotePerson))
    (hnd : (remote.map fun gp => gp.1.personGroupId).Nodup)
    (g : RemoteGroup) (ps : List RemotePerson) (hmem : (g, ps) ∈ remote)
    (hp : (ps.map RemotePerson.name).Nodup) :
    dget (update_store st remote).1.store g.personGroupId
      = some (ps.map fun p => (p.name, p.personId)) := by
  induction remote generalizing st with
  | nil => cases hmem
  | cons gp rest ih =>
      obtain ⟨g', ps'⟩ := gp
      simp only [List.map_cons, List.nodup_cons] at hnd
      rcases List.mem_cons.mp hmem with hhd | htl
      · injection hhd with hg hps
        subst hg
        subst hps
        simp only [update_store]
        rw [update_store_dget_ne (processGroup st g ps) rest g.personGroupId hnd.1]
        simp only [processGroup]
        rw [storePersons_dget_self _ _ [] _ (dget_dset_self st.store g.personGroupId [])]
        rw [persons_foldl_eq_map ps hp]
      · simp only [update_store]
        exact ih (processGroup st g' ps') hnd.2 htl

theorem update_store_trace (st : FaceState)
    (remote : List (RemoteGroup × List RemotePerson)) :
    (update_store st remote).2
      = (remote.map fun gp =>
          [SyncEvent.groupRecorded gp.1.personGroupId,
           SyncEvent.personsFetched gp.1.personGroupId]).flatten := by
  induction remote generalizing st with
  | nil => rfl
  | cons gp rest ih =>
      obtain ⟨g, ps⟩ := gp
      simp [update_store, ih (processGroup st g ps)]

/-! The claims. -/

/-- C1: for every `call_api` invocation whose HTTP response has status 300 or
above, `call_api` raises a `ServiceError` whose message is the value found at
the response body's nested error-message field (`body['error']['message']`);
when that nested field is absent, the error construction itself fails (a
`KeyError`/`TypeError` escapes instead of a `ServiceError`). -/
theorem C1_error_status_raises_service_error (region fn : String) (data : PyData)
    (bin : Bool) (resp : HttpResponse) (h : 300 ≤ resp.status) :
    (∀ m, errorMessage resp.body = some m →
        (call_api region fn data bin (NetOutcome.response resp)).2
          = ApiResult.serviceError m) ∧
    (errorMessage resp.body = none →
        (call_api region fn data bin (NetOutcome.response resp)).2
          = ApiResult.pyError "KeyError") := by
  have hlt : ¬ resp.status < 300 := Nat.not_lt.mpr h
  constructor
  · intro m hm
    simp [call_api, apiResult, hlt, hm]
  · intro hm
    simp [call_api, apiResult, hlt, hm]

/-- Witness for C1 at a concrete 400 response carrying a nested message. -/
theorem C1_error_status_raises_service_error_witness :
    300 ≤ (400 : Nat) ∧
    (call_api "westus" "persongroups" PyData.pyNone false
        (NetOutcome.response ⟨400, demoErrBody⟩)).2
      = ApiResult.serviceError (JVal.jstr "bad request") :=
  ⟨by decide,
   (C1_error_status_raises_service_error "westus" "persongroups" PyData.pyNone false
      ⟨400, demoErrBody⟩ (by decide)).1 (JVal.jstr "bad request") rfl⟩

/-- C2: for the create-group, delete-group, create-person and delete-person
handlers, a remote call that raises `ServiceError` leaves the mirrored store
unchanged — the store is mutated strictly after the remote call reports
success, never optimistically before confirmation. -/
theorem C2_store_unchanged_on_service_error (st : FaceState) (nm g_id p : String)
    (outcome : NetOutcome) (m : JVal)
    (h : apiResult outcome = ApiResult.serviceError m) :
    (async_create_group st nm outcome).state.store = st.store ∧
    (async_delete_group st nm outcome).state.store = st.store ∧
    (async_create_person st g_id p outcome).state.store = st.store ∧
    (async_delete_person st g_id p outcome).state.store = st.store := by
  refine ⟨?_, ?_, ?_, ?_⟩
  · simp [async_create_group, h]
  · simp [async_delete_group, h]
  · simp [async_create_person, h]
  · cases hd : dget st.store g_id <;> simp [async_delete_person, hd, h]

/-- Witness for C2: a connection failure against a concrete state. -/
theorem C2_store_unchanged_on_service_error_witness :
    (async_create_group demoState "Family" NetOutcome.clientError).state.store
        = demoState.store ∧
    (async_delete_group demoState "Family" NetOutcome.clientError).state.store
        = demoState.store ∧
    (async_create_person demoState "family" "Alice" NetOutcome.clientError).state.store
        = demoState.store ∧
    (async_delete_person demoState "family" "Alice" NetOutcome.clientError).state.store
        = demoState.store :=
  C2_store_unchanged_on_service_error demoState "Family" "family" "Alice"
    NetOutcome.clientError (JVal.jstr "Network error on microsoft face api.") rfl

/-- C3: after a successful full sync over remote data whose group identifiers
are distinct (they key remote resources) and whose person names are distinct
within each group (they key the mapping), the store maps every returned group
identifier to exactly the name-to-identifier mapping of that group's returned
persons — keys are the person names, values their remote identifiers — and
the trace shows each group-list entry processed immediately before that
group's persons are fetched (no interleaving across groups in the source:
groups are handled sequentially; only the entity refreshes are fanned out). -/
theorem C3_update_store_populates (st : FaceState)
    (remote : List (RemoteGroup × List RemotePerson))
    (hnd : (remote.map fun gp => gp.1.personGroupId).Nodup)
    (hp : ∀ gp ∈ remote, (List.map RemotePerson.name gp.2).Nodup) :
    (∀ gp ∈ remote,
        dget (update_store st remote).1.store gp.1.personGroupId
          = some (gp.2.map fun p => (p.name, p.personId))) ∧
    (update_store st remote).2
      = (remote.map fun gp =>
          [SyncEvent.groupRecorded gp.1.personGroupId,
           SyncEvent.personsFetched gp.1.personGroupId]).flatten := by
  constructor
  · intro gp hm
    exact update_store_dget st remote hnd gp.1 gp.2 hm (hp gp hm)
  · exact update_store_trace st remote

/-- Witness for C3: one remote group with one person, from an empty state. -/
theorem C3_update_store_populates_witness :
    dget (update_store ⟨[], []⟩
        [(⟨"family", "Family"⟩, [⟨"Alice", "abc123"⟩])]).1.store "family"
      = some [("Alice", "abc123")] ∧
    (update_store ⟨[], []⟩
        [(⟨"family", "Family"⟩, [⟨"Alice", "abc123"⟩])]).2
      = [SyncEvent.groupRecorded "family", SyncEvent.personsFetched "family"] :=
  ⟨(C3_update_store_populates ⟨[], []⟩
      [(⟨"family", "Family"⟩, [⟨"Alice", "abc123"⟩])] (by decide) (by decide)).1
      (⟨"family", "Family"⟩, [⟨"Alice", "abc123"⟩]) (by decide),
   by rfl⟩

/-- C4: for every group name, creating then deleting the group, with both
remote calls succeeding, leaves the mirrored store without an entry for the
name's normalized identifier. -/
theorem C4_create_then_delete_removes (st : FaceState) (nm : String)
    (o1 o2 : NetOutcome) (hwf : wfDict st.store) (a1 a2 : JVal)
    (h1 : apiResult o1 = ApiResult.ok a1) (h2 : apiResult o2 = ApiResult.ok a2) :
    dget (async_delete_group (async_create_group st nm o1).state nm o2).state.store
      (slugify nm) = none := by
  have hcreate : (async_create_group st nm o1).state
      = ⟨dset st.store (slugify nm) [], dset st.entities (slugify nm) nm⟩ := by
    simp [async_create_group, h1]
  rw [hcreate]
  have hs : dget (dset st.store (slugify nm) []) (slugify nm) = some [] :=
    dget_dset_self st.store (slugify nm) []
  have he : dget (dset st.entities (slugify nm) nm) (slugify nm) = some nm :=
    dget_dset_self st.entities (slugify nm) nm
  simp only [async_delete_group, h2, hs, he]
  exact dget_dpop_self _ _ (wfDict_dset st.store (slugify nm) [] hwf)

/-- Witness for C4 at a concrete name and successful responses. -/
theorem C4_create_then_delete_removes_witness :
    wfDict demoState.store ∧
    dget (async_delete_group (async_create_group demoState "Family" demoOk).state
        "Family" demoOk).state.store (slugify "Family") = none :=
  ⟨by decide,
   C4_create_then_delete_removes demoState "Family" demoOk demoOk (by decide)
     (JVal.jobj []) (JVal.jobj []) rfl rfl⟩

/-- C5 counterexample: the delete-person handler invoked with a group
identifier absent from the mirrored store — an input the command's payload
schema accepts — evaluates `face.store[g_id]` at line 212, before its `try`
block, and the resulting `KeyError` escapes to the command-dispatch layer
instead of being logged and swallowed; the claim that no failure ever
propagates is therefore false. -/
theorem C5_counterexample :
    (async_delete_person ⟨[], []⟩ "family" "Alice" NetOutcome.clientError).raised
      = some "KeyError" := rfl

/-- C5 amended: for every lifecycle operation, a `ServiceError` raised by the
remote call (or, for attach-face, by the image-capture collaborator) is
logged and swallowed at the operation's own boundary, provided every
mirrored-store group lookup the handler performs succeeds; failures that are
not `ServiceError` — notably the `KeyError` on a group identifier absent
from the mirrored store — propagate to the command-dispatch layer. -/
theorem C5_service_error_swallowed_and_logged (st : FaceState)
    (nm g_id person : String) (image : Option (List Nat)) (outcome : NetOutcome)
    (m : JVal) (h : apiResult outcome = ApiResult.serviceError m)
    (grp : Dict String) (hg : dget st.store g_id = some grp) :
    ((async_create_group st nm outcome).raised = none ∧
      (async_create_group st nm outcome).logs ≠ []) ∧
    ((async_delete_group st nm outcome).raised = none ∧
      (async_delete_group st nm outcome).logs ≠ []) ∧
    ((async_train_group st g_id outcome).raised = none ∧
      (async_train_group st g_id outcome).logs ≠ []) ∧
    ((async_create_person st g_id person outcome).raised = none ∧
      (async_create_person st g_id person outcome).logs ≠ []) ∧
    ((async_delete_person st g_id person outcome).raised = none ∧
      (async_delete_person st g_id person outcome).logs ≠ []) ∧
    ((async_face_person st g_id person image outcome).raised = none ∧
      (async_face_person st g_id person image outcome).logs ≠ []) := by
  refine ⟨⟨?_, ?_⟩, ⟨?_, ?_⟩, ⟨?_, ?_⟩, ⟨?_, ?_⟩, ⟨?_, ?_⟩, ⟨?_, ?_⟩⟩ <;>
    cases image <;>
      simp [async_create_group, async_delete_group, async_train_group,
        async_create_person, async_delete_person, async_face_person, h, hg]

/-- Witness for C5 (amended): a connection failure against a concrete state
whose group is present. -/
theorem C5_service_error_swallowed_and_logged_witness :
    ((async_create_group demoState "Family" NetOutcome.clientError).raised = none ∧
      (async_create_group demoState "Family" NetOutcome.clientError).logs ≠ []) ∧
    ((async_delete_group demoState "Family" NetOutcome.clientError).raised = none ∧
      (async_delete_group demoState "Family" NetOutcome.clientError).logs ≠ []) ∧
    ((async_train_group demoState "family" NetOutcome.clientError).raised = none ∧
      (async_train_group demoState "family" NetOutcome.clientError).logs ≠ []) ∧
    ((async_create_person demoState "family" "Alice" NetOutcome.clientError).raised = none ∧
      (async_create_person demoState "family" "Alice" NetOutcome.clientError).logs ≠ []) ∧
    ((async_delete_person demoState "family" "Alice" NetOutcome.clientError).raised = none ∧
      (async_delete_person demoState "family" "Alice" NetOutcome.clientError).logs ≠ []) ∧
    ((async_face_person demoState "family" "Alice" (some []) NetOutcome.clientError).raised
        = none ∧
      (async_face_person demoState "family" "Alice" (some []) NetOutcome.clientError).logs
        ≠ []) :=
  C5_service_error_swallowed_and_logged demoState "Family" "family" "Alice" (some [])
    NetOutcome.clientError (JVal.jstr "Network error on microsoft face api.") rfl
    [("Alice", "abc123")] rfl

/-- C6 evaluation: a `call_api` that times out after the response object was
bound raises the fixed-message `ServiceError` whatever the payload type; but
a timeout that expires before any response object was received makes the
timeout handler itself fail — its log statement reads `response.url` with
`response` unbound (line 374 of the source), so `UnboundLocalError`
propagates instead of the claimed fixed-message `ServiceError`. The claim
describes the code's evident intent (the final fixed
`raise HomeAssistantError` at line 376 is meant to cover both timeout
paths); the unconditional `response.url` in the handler is the slip. -/
theorem C6_timeout_behaviour (region fn : String) (data : PyData) (bin : Bool)
    (resp : HttpResponse) :
    (call_api region fn data bin (NetOutcome.timeoutAfterResponse resp)).2
      = ApiResult.serviceError (JVal.jstr "Network error on microsoft face api.") ∧
    (call_api region fn data bin NetOutcome.timeoutNoResponse).2
      = ApiResult.pyError "UnboundLocalError" :=
  ⟨rfl, rfl⟩

/-- C7 counterexample: deleting a person absent from the group's mapping
(with the group present) issues the remote DELETE with the placeholder
`"None"` — the formatted null lookup result — in the resource path, not the
claimed placeholder `"not found"`. -/
theorem C7_counterexample :
    (async_delete_person ⟨[("family", [])], [("family", "Family")]⟩ "family" "Alice"
        demoOk).calls
      = [("delete", "persongroups/family/persons/None")] ∧
    "persongroups/family/persons/None" ≠ "persongroups/family/persons/not found" :=
  ⟨rfl, by decide⟩

/-- C7 amended: for every delete-person invocation whose person name is
absent from the target group's mirrored mapping (the group itself present),
the handler still issues the remote DELETE call — it does not fail fast
locally — with the placeholder `"None"` (the string form of the null lookup
result) substituted into the resource path. -/
theorem C7_delete_person_placeholder (st : FaceState) (g_id nm : String)
    (grp : Dict String) (outcome : NetOutcome)
    (hg : dget st.store g_id = some grp) (hn : dget grp nm = none) :
    (async_delete_person st g_id nm outcome).calls
      = [("delete", "persongroups/" ++ g_id ++ "/persons/None")] := by
  cases h : apiResult outcome <;>
  · simp [async_delete_person, hg, hn, formatOpt, h]
    rw [String.append_assoc]
    exact congrArg _ (by decide)

/-- Witness for C7 (amended) at a concrete state and a connection failure. -/
theorem C7_delete_person_placeholder_witness :
    (async_delete_person ⟨[("family", [])], [("family", "Family")]⟩ "family" "Alice"
        NetOutcome.clientError).calls
      = [("delete", "persongroups/family/persons/None")] :=
  C7_delete_person_placeholder ⟨[("family", [])], [("family", "Family")]⟩ "family"
    "Alice" [] NetOutcome.clientError rfl rfl

/-- C8: for every group present in the mirrored store, the group entity's
state value equals the number of entries in that group's person mapping at
read time, and its attribute set is exactly that group's full
name-to-identifier mapping; both observables are defined as functions of the
shared store, recomputed on every read — the view holds no copy of its own. -/
theorem C8_group_entity_projection (store : Dict (Dict String)) (g_id : String)
    (grp : Dict String) (hg : dget store g_id = some grp) (hwf : wfDict grp) :
    entity_state store g_id = some grp.length ∧
    device_state_attributes store g_id = some grp := by
  constructor
  · simp [entity_state, hg]
  · have hfold : grp.foldl (fun attr p => dset attr p.1 p.2) ([] : Dict String) = grp := by
      have := foldl_dset_eq_append grp []
        (by intro p hp; simp [keys_nil]) hwf
      simpa using this
    simp [device_state_attributes, hg, hfold]

/-- Witness for C8 against the concrete state. -/
theorem C8_group_entity_projection_witness :
    entity_state demoState.store "family" = some 1 ∧
    device_state_attributes demoState.store "family" = some [("Alice", "abc123")] :=
  C8_group_entity_projection demoState.store "family" [("Alice", "abc123")] rfl
    (by decide)

/-- C9: the train-group and attach-face handlers leave the mirrored store
completely unchanged, whether the remote call (or the image capture) succeeds
or fails — training and face attachment are remote-only operations with no
mirrored state. -/
theorem C9_train_and_face_frame (st : FaceState) (g_id person : String)
    (image : Option (List Nat)) (outcome : NetOutcome) :
    (async_train_group st g_id outcome).state.store = st.store ∧
    (async_face_person st g_id person image outcome).state.store = st.store := by
  constructor
  · cases h : apiResult outcome <;> simp [async_train_group, h]
  · cases hd : dget st.store g_id
    · simp [async_face_person, hd]
    · cases image
      · simp [async_face_person, hd]
      · cases h : apiResult outcome <;> simp [async_face_person, hd, h]

/-- C10: a create-group invocation whose normalized identifier is already
present in the mirrored store, with a successful remote call, resets that
identifier's local person mapping to the empty mapping, discarding all
previously mirrored name-to-identifier entries for the group. -/
theorem C10_create_group_resets_mapping (st : FaceState) (nm : String)
    (outcome : NetOutcome) (grp : Dict String)
    (hg : dget st.store (slugify nm) = some grp) (a : JVal)
    (h : apiResult outcome = ApiResult.ok a) :
    dget (async_create_group st nm outcome).state.store (slugify nm) = some [] := by
  simp [async_create_group, h, dget_dset_self]

/-- Witness for C10: the concrete state already holds `family` with one
person; recreating the group empties the mapping. -/
theorem C10_create_group_resets_mapping_witness :
    dget demoState.store (slugify "Family") = some [("Alice", "abc123")] ∧
    dget (async_create_group demoState "Family" demoOk).state.store (slugify "Family")
      = some [] :=
  ⟨by decide,
   C10_create_group_resets_mapping demoState "Family" demoOk [("Alice", "abc123")]
     (by decide) (JVal.jobj []) rfl⟩

end MicrosoftFace
